import Mathlib

/-!
# bbb_otg host program (`src/host/main.c`), libusb-0.1 configuration

A shallow embedding of the host-side USB echo client as compiled with
`CONFIG_LIBUSB_VERSION 1` (the `usb.h` backend; the other preprocessor branch is
not compiled and is not modelled).

The program talks to the outside world only through libusb calls and `malloc`.
Those are modelled by an environment `Env` that fixes, for each kind of call,
the outcome of its n-th invocation, and by a `State` that carries the call
counters, the global `usb_busses` list and a chronological `trace` of every
library call made.  Besides the library calls, the trace records the entry of
the three functions whose invocations the specification counts
(`send_recv_buf`, `open_dev_usb_handle`, `close_dev_usb_handle`).

Console I/O (`printf`, `getchar`, `dump_buf`, the `DEBUG_*` macros) has no
effect on the modelled state and is left out.
-/

namespace BbbOtg

/-! ## Configuration constants -/

def CONFIG_BUF_SIZE : Nat := 32
def CONFIG_VENDOR_ID : Nat := 0x0525
def CONFIG_PRODUCT_ID : Nat := 0xa4a4
def CONFIG_EP_REP : Nat := 1
def CONFIG_EP_REQ : Nat := 1
def CONFIG_DEFAULT_TIMEOUT : Nat := 2000

/-- Direction bit of an IN endpoint address, from libusb-0.1 `usb.h`. -/
def USB_ENDPOINT_IN : Nat := 0x80
/-- Direction bit of an OUT endpoint address, from libusb-0.1 `usb.h`. -/
def USB_ENDPOINT_OUT : Nat := 0x00

/-! ## Data model -/

/-- The two fields of `struct usb_device_descriptor` the program reads. -/
structure usb_device_descriptor where
  idVendor : Nat
  idProduct : Nat
deriving DecidableEq, Repr

/-- A `struct usb_device` node: its descriptor, and `devnum` to tell two devices
with equal descriptors apart. -/
structure usb_device where
  devnum : Nat
  descriptor : usb_device_descriptor
deriving DecidableEq, Repr

/-- A `struct usb_bus` node: the `devices` linked list, in `next` order. -/
structure usb_bus where
  devices : List usb_device
deriving DecidableEq, Repr

/-- The session `dev_handle_t`; `usb_handle = none` is the null pointer, and
`some h` is the libusb handle with address `h`. -/
structure dev_handle where
  usb_handle : Option Nat
  ep_req : Nat
  ep_rep : Nat
deriving DecidableEq, Repr

/-- One entry of the trace: a library call with its arguments and result, or the
entry of one of the counted functions. -/
inductive Event where
  | usb_init
  | usb_find_busses
  | usb_find_devices
  | usb_open (dev : usb_device) (ret : Option Nat)
  | usb_claim_interface (h : Option Nat) (iface : Int) (ret : Int)
  | usb_close (h : Option Nat)
  | usb_bulk_write (h : Option Nat) (ep : Nat) (bytes : List Nat) (size timeout : Nat) (ret : Int)
  | usb_bulk_read (h : Option Nat) (ep : Nat) (size timeout : Nat) (ret : Int)
  | malloc (ok : Bool)
  | free
  | call_send_recv_buf
  | call_open_dev_usb_handle (enum_only : Int)
  | call_close_dev_usb_handle (h : Option Nat)
deriving DecidableEq, Repr

/-- The outcomes of the external calls: the n-th call of each kind gets the n-th
outcome (counting from 0). -/
structure Env where
  /-- the byte at the lowest address of the `uint16_t` value `0x0102` -/
  first_byte_of_magic : Nat
  /-- the bus list seen after the n-th `usb_find_busses(); usb_find_devices();` -/
  enumerate : Nat → List usb_bus
  /-- result of the n-th `usb_open` (`none` is NULL) -/
  open_result : Nat → Option Nat
  /-- result of the n-th `usb_claim_interface` -/
  claim_result : Nat → Int
  /-- result of the n-th `usb_bulk_write` -/
  write_result : Nat → Int
  /-- result of the n-th `usb_bulk_read` and the buffer contents it leaves -/
  read_result : Nat → Int × List Nat
  /-- result of the n-th `malloc(sizeof(dev_handle_t))`: NULL, or a block with
  arbitrary initial contents -/
  malloc_result : Nat → Option dev_handle

/-- Program state: the globals, the per-call counters and the trace. -/
structure State where
  is_mach_le : Int
  usb_busses : List usb_bus
  n_enum : Nat
  n_open : Nat
  n_claim : Nat
  n_write : Nat
  n_read : Nat
  n_malloc : Nat
  trace : List Event

/-- State at program start: `is_mach_le = 0`, nothing enumerated, no call made. -/
def State.start : State :=
  { is_mach_le := 0, usb_busses := [], n_enum := 0, n_open := 0, n_claim := 0,
    n_write := 0, n_read := 0, n_malloc := 0, trace := [] }

/-- Append one event to the trace. -/
def State.log (st : State) (e : Event) : State :=
  { st with trace := st.trace ++ [e] }

/-! ## External calls -/

def usb_init (st : State) : State := st.log .usb_init

def usb_find_busses (st : State) : State := st.log .usb_find_busses

/-- Completes the enumeration started by `usb_find_busses`: `usb_busses` now holds
the environment's next bus list. -/
def usb_find_devices (env : Env) (st : State) : State :=
  { st with usb_busses := env.enumerate st.n_enum,
            n_enum := st.n_enum + 1,
            trace := st.trace ++ [.usb_find_devices] }

def usb_open (env : Env) (st : State) (dev : usb_device) : Option Nat × State :=
  let ret := env.open_result st.n_open
  (ret, { st with n_open := st.n_open + 1, trace := st.trace ++ [.usb_open dev ret] })

def usb_claim_interface (env : Env) (st : State) (h : Option Nat) (iface : Int) :
    Int × State :=
  let ret := env.claim_result st.n_claim
  (ret, { st with n_claim := st.n_claim + 1,
                  trace := st.trace ++ [.usb_claim_interface h iface ret] })

def usb_close (st : State) (h : Option Nat) : State := st.log (.usb_close h)

def usb_bulk_write (env : Env) (st : State) (h : Option Nat) (ep : Nat) (buf : List Nat)
    (size timeout : Nat) : Int × State :=
  let ret := env.write_result st.n_write
  (ret, { st with n_write := st.n_write + 1,
                  trace := st.trace ++ [.usb_bulk_write h ep buf size timeout ret] })

/-- Returns the call's result and the buffer as the library leaves it. -/
def usb_bulk_read (env : Env) (st : State) (h : Option Nat) (ep : Nat)
    (size timeout : Nat) : Int × List Nat × State :=
  let r := env.read_result st.n_read
  (r.1, r.2, { st with n_read := st.n_read + 1,
                       trace := st.trace ++ [.usb_bulk_read h ep size timeout r.1] })

/-! ## The program -/

/-- `alloc_dev_handle`: NULL when `malloc` fails, else the block with `usb_handle`
set to NULL (the endpoint fields keep whatever the block held). -/
def alloc_dev_handle (env : Env) (st : State) : Option dev_handle × State :=
  let r := env.malloc_result st.n_malloc
  let st1 := { st with n_malloc := st.n_malloc + 1,
                       trace := st.trace ++ [.malloc r.isSome] }
  match r with
  | none => (none, st1)
  | some handle => (some { handle with usb_handle := none }, st1)

def free_dev_handle (st : State) (_handle : dev_handle) : State := st.log .free

/-- `is_device`: 1 when the descriptor carries the configured vendor and product
id, else 0. -/
def is_device (dev : usb_device) : Nat :=
  if dev.descriptor.idVendor ≠ CONFIG_VENDOR_ID then 0
  else if dev.descriptor.idProduct ≠ CONFIG_PRODUCT_ID then 0
  else 1

/-- `send_recv_buf` (libusb-0.1 version): bulk write then bulk read of the same
buffer; returns the result code, the buffer and the state. -/
def send_recv_buf (env : Env) (st : State) (handle : dev_handle) (buf : List Nat) :
    Int × List Nat × State :=
  let st0 := st.log .call_send_recv_buf
  let (usberr, st1) :=
    usb_bulk_write env st0 handle.usb_handle handle.ep_req buf CONFIG_BUF_SIZE
      CONFIG_DEFAULT_TIMEOUT
  if usberr < 0 then (-1, buf, st1)
  else
    let (usberr, buf1, st2) :=
      usb_bulk_read env st1 handle.usb_handle handle.ep_rep CONFIG_BUF_SIZE
        CONFIG_DEFAULT_TIMEOUT
    if usberr < 0 then (-1, buf1, st2)
    else (0, buf1, st2)

def close_dev_usb_handle (st : State) (usb_handle : Option Nat) : State :=
  usb_close (st.log (.call_close_dev_usb_handle usb_handle)) usb_handle

/-- How the device loops of `open_dev_usb_handle` are left early: by `return 0`
or by `goto on_error`, with the value of `*usb_handle` at that point. -/
inductive LoopExit where
  | return_0 (usb_handle : Option Nat) (st : State)
  | on_error (error : Int) (usb_handle : Option Nat) (st : State)

/-- The body of `if (is_device(dev)) { ... }` in `open_dev_usb_handle`. -/
def open_matched (env : Env) (st : State) (enum_only : Int) (dev : usb_device) :
    LoopExit :=
  if enum_only ≠ 0 then .on_error 0 none st
  else
    let (usb_handle, st1) := usb_open env st dev
    if usb_handle = none then .on_error (-1) usb_handle st1
    else
      let (r, st2) := usb_claim_interface env st1 usb_handle 0
      if r ≠ 0 then .on_error (-1) usb_handle st2
      else .return_0 usb_handle st2

/-- The inner loop `for (dev = bus->devices; dev != NULL; dev = dev->next)`;
`none` when it runs to the end. -/
def scan_devices (env : Env) (st : State) (enum_only : Int) :
    List usb_device → Option LoopExit
  | [] => none
  | dev :: rest =>
    if is_device dev ≠ 0 then some (open_matched env st enum_only dev)
    else scan_devices env st enum_only rest

/-- The outer loop `for (bus = usb_busses; bus != NULL; bus = bus->next)`;
`none` when it runs to the end. -/
def scan_busses (env : Env) (st : State) (enum_only : Int) :
    List usb_bus → Option LoopExit
  | [] => none
  | bus :: rest =>
    match scan_devices env st enum_only bus.devices with
    | some e => some e
    | none => scan_busses env st enum_only rest

/-- The code at label `on_error` of `open_dev_usb_handle`. -/
def open_on_error (error : Int) (usb_handle : Option Nat) (st : State) :
    Int × Option Nat × State :=
  if usb_handle ≠ none then (error, none, usb_close st usb_handle)
  else (error, usb_handle, st)

/-- `open_dev_usb_handle`: returns the result code, the final `*usb_handle` and
the state. -/
def open_dev_usb_handle (env : Env) (st : State) (enum_only : Int) :
    Int × Option Nat × State :=
  let st0 := st.log (.call_open_dev_usb_handle enum_only)
  let st1 := usb_find_devices env (usb_find_busses st0)
  match scan_busses env st1 enum_only st1.usb_busses with
  | some (.return_0 usb_handle st2) => (0, usb_handle, st2)
  | some (.on_error error usb_handle st2) => open_on_error error usb_handle st2
  | none => open_on_error (-1) none st1

/-- `find_device`: the enum-only probe on a local dummy handle. -/
def find_device (env : Env) (st : State) : Int × State :=
  let r := open_dev_usb_handle env st 1
  (r.1, r.2.2)

/-- `send_recv_buf_or_reopen`: returns the result code, the session, the buffer
and the state.  The result of the second `send_recv_buf` is stored in `error`
and the function then executes `return 0`. -/
def send_recv_buf_or_reopen (env : Env) (st : State) (handle : dev_handle)
    (buf : List Nat) : Int × dev_handle × List Nat × State :=
  let (error, buf1, st1) := send_recv_buf env st handle buf
  if error = -1 then
    let (found, st2) := find_device env st1
    if found = -1 then (-1, handle, buf1, st2)
    else
      let st3 := close_dev_usb_handle st2 handle.usb_handle
      let (error, usb_handle, st4) := open_dev_usb_handle env st3 0
      let handle1 := { handle with usb_handle := usb_handle }
      if error = -1 then (-1, handle1, buf1, st4)
      else
        let (_error, buf2, st5) := send_recv_buf env st4 handle1 buf1
        (0, handle1, buf2, st5)
  else (0, handle, buf1, st1)

def get_is_mach_le (env : Env) : Int :=
  if env.first_byte_of_magic = 0x02 then 1 else 0

def finalize (st : State) : State := st

/-- The source's `initialize` (libusb-0.1 branch): always returns 0. -/
def initialize_ (env : Env) (st : State) : Int × State :=
  (0, usb_init { st with is_mach_le := get_is_mach_le env })

/-- `dev_open`: returns the result code, `*dev_handle`, the local `usb_handle`
at return, and the state. -/
def dev_open (env : Env) (st : State) : Int × Option dev_handle × Option Nat × State :=
  let (error, usb_handle, st1) := open_dev_usb_handle env st 0
  if error = -1 then (-1, none, usb_handle, st1)
  else
    let (dev_handle, st2) := alloc_dev_handle env st1
    match dev_handle with
    | none => (-1, none, usb_handle, st2)
    | some h =>
      (0, some { h with usb_handle := usb_handle,
                        ep_req := CONFIG_EP_REQ ||| USB_ENDPOINT_OUT,
                        ep_rep := CONFIG_EP_REP ||| USB_ENDPOINT_IN },
       usb_handle, st2)

def dev_close (st : State) (handle : dev_handle) : State :=
  let st1 := if handle.usb_handle ≠ none then close_dev_usb_handle st handle.usb_handle
             else st
  free_dev_handle st1 handle

def dev_echo (env : Env) (st : State) (handle : dev_handle) (buf : List Nat) :
    Int × dev_handle × List Nat × State :=
  send_recv_buf_or_reopen env st handle buf

/-- `main`: returns the exit status and the final state. -/
def main (env : Env) (st : State) : Int × State :=
  let (e0, st1) := initialize_ env st
  if e0 ≠ 0 then (0, st1)
  else
    let (e1, handle, _, st2) := dev_open env st1
    if e1 ≠ 0 then (0, finalize st2)
    else
      match handle with
      | none => (0, finalize st2)
      | some h =>
        let buf := List.replicate CONFIG_BUF_SIZE 0x2a
        let (_e2, h1, _buf1, st3) := dev_echo env st2 h buf
        (0, finalize (dev_close st3 h1))

/-! ## Observations on traces -/

/-- The events logged between state `st` and a later state `st'`. -/
def events_since (st st' : State) : List Event := st'.trace.drop st.trace.length

/-- Every enumerated device, in the order the two loops visit them. -/
def all_devices (busses : List usb_bus) : List usb_device :=
  busses.flatMap (fun bus => bus.devices)

/-- The first device, in loop order, that `is_device` accepts. -/
def first_match (busses : List usb_bus) : Option usb_device :=
  (all_devices busses).find? (fun dev => is_device dev ≠ 0)

def Event.is_usb_open : Event → Bool
  | .usb_open _ _ => true
  | _ => false

def Event.is_usb_claim_interface : Event → Bool
  | .usb_claim_interface _ _ _ => true
  | _ => false

def Event.is_usb_close : Event → Bool
  | .usb_close _ => true
  | _ => false

def Event.is_usb_bulk_read : Event → Bool
  | .usb_bulk_read _ _ _ _ _ => true
  | _ => false

def Event.is_call_close_dev_usb_handle : Event → Bool
  | .call_close_dev_usb_handle _ => true
  | _ => false

/-- The handle a `usb_open` event returned, when it is not NULL. -/
def Event.opened : Event → Option Nat
  | .usb_open _ (some h) => some h
  | _ => none

/-- The state right after the enumeration at the top of `open_dev_usb_handle`. -/
def after_enumeration (env : Env) (st : State) (enum_only : Int) : State :=
  { st with usb_busses := env.enumerate st.n_enum,
            n_enum := st.n_enum + 1,
            trace := st.trace ++ [.call_open_dev_usb_handle enum_only, .usb_find_busses,
                                  .usb_find_devices] }

/-- The state after a non-probe open that went on past the enumeration: `evs` are
the events it logged there, `opens` and `claims` the calls it made. -/
def after_open (env : Env) (st : State) (evs : List Event) (opens claims : Nat) : State :=
  { after_enumeration env st 0 with
      n_open := st.n_open + opens, n_claim := st.n_claim + claims,
      trace := (after_enumeration env st 0).trace ++ evs }

/-- Entries of the trace that record a function entry. -/
def Event.is_call : Event → Bool
  | .call_send_recv_buf => true
  | .call_open_dev_usb_handle _ => true
  | .call_close_dev_usb_handle _ => true
  | _ => false

/-- The function entries among `evs`, in order. -/
def calls (evs : List Event) : List Event := evs.filter Event.is_call

/-- Bookkeeping of open libusb handles over one event.  `opened` lists the
handles opened and not yet closed.  `none` reports a violation: a second handle
open at the same time, `usb_close` on NULL, or `usb_close` on a handle that is
not open. -/
def handle_step (opened : List Nat) : Event → Option (List Nat)
  | .usb_open _ (some h) => if (h :: opened).length ≤ 1 then some (h :: opened) else none
  | .usb_close none => none
  | .usb_close (some h) => if h ∈ opened then some (opened.erase h) else none
  | _ => some opened

/-- Runs `handle_step` over a trace, from the handles in `opened`. -/
def handle_discipline : List Nat → List Event → Option (List Nat)
  | opened, [] => some opened
  | opened, e :: es => (handle_step opened e).bind (fun o => handle_discipline o es)

/-! ## Example devices and environments -/

/-- A device with the configured vendor and product id. -/
def target_device : usb_device :=
  { devnum := 4, descriptor := { idVendor := 0x0525, idProduct := 0xa4a4 } }

/-- A device with another vendor and product id. -/
def other_device : usb_device :=
  { devnum := 1, descriptor := { idVendor := 0x1d6b, idProduct := 0x0002 } }

/-- An environment whose calls of one kind all have the same outcome. -/
def Env.constant (busses : List usb_bus) (opened : Option Nat) (claim write : Int)
    (read : Int × List Nat) (block : Option dev_handle) : Env :=
  { first_byte_of_magic := 0x02,
    enumerate := fun _ => busses,
    open_result := fun _ => opened,
    claim_result := fun _ => claim,
    write_result := fun _ => write,
    read_result := fun _ => read,
    malloc_result := fun _ => block }

/-- A session as `dev_open` leaves it, on handle 3. -/
def example_session : dev_handle :=
  { usb_handle := some 3, ep_req := 1, ep_rep := 129 }

/-- The 32-byte request buffer `main` sends: every byte 0x2a. -/
def request_buf : List Nat := List.replicate CONFIG_BUF_SIZE 0x2a

/-- Bulk writes fail and no device matches: the probe reports the device absent. -/
def absent_env : Env :=
  Env.constant [{ devices := [other_device] }] (some 7) 0 (-1) (0, []) none

/-- Bulk writes fail, the device is enumerated, and `usb_open` returns NULL. -/
def reopen_fails_env : Env :=
  Env.constant [{ devices := [other_device, target_device] }] none 0 (-1) (0, []) none

/-- Bulk writes fail, the device is enumerated, `usb_open` returns handle 7 and
the claim succeeds. -/
def retry_fails_env : Env :=
  Env.constant [{ devices := [other_device, target_device] }] (some 7) 0 (-1) (0, []) none

/-- The bulk write sends all 32 bytes and the bulk read delivers 5. -/
def short_read_env : Env :=
  Env.constant [{ devices := [target_device] }] (some 7) 0 32 (5, [1, 2, 3, 4, 5]) none

/-- The device opens on handle 7 and is claimed, and `malloc` returns NULL. -/
def malloc_fails_env : Env :=
  Env.constant [{ devices := [target_device] }] (some 7) 0 32 (32, []) none

/-! ## Basic lemmas -/

theorem scan_devices_eq (env : Env) (st : State) (enum_only : Int) (devs : List usb_device) :
    scan_devices env st enum_only devs
      = (devs.find? (fun dev => is_device dev ≠ 0)).map (open_matched env st enum_only) := by
  induction devs with
  | nil => rfl
  | cons dev rest ih =>
    by_cases h : is_device dev = 0
    · simp [scan_devices, h, ih]
    · simp [scan_devices, h]

theorem scan_busses_eq (env : Env) (st : State) (enum_only : Int) (busses : List usb_bus) :
    scan_busses env st enum_only busses
      = (first_match busses).map (open_matched env st enum_only) := by
  induction busses with
  | nil => rfl
  | cons bus rest ih =>
    unfold first_match all_devices at ih ⊢
    rw [scan_busses, scan_devices_eq, List.flatMap_cons, List.find?_append]
    cases hf : bus.devices.find? (fun dev => is_device dev ≠ 0) with
    | none => simpa using ih
    | some d => simp

theorem after_enumeration_eq (env : Env) (st : State) (enum_only : Int) :
    usb_find_devices env (usb_find_busses (st.log (.call_open_dev_usb_handle enum_only)))
      = after_enumeration env st enum_only := by
  simp [usb_find_devices, usb_find_busses, State.log, after_enumeration]

/-- The probe: result code from the first match, handle null, three events. -/
theorem open_dev_usb_handle_probe (env : Env) (st : State) :
    open_dev_usb_handle env st 1
      = (if (first_match (env.enumerate st.n_enum)).isSome then 0 else -1, none,
         after_enumeration env st 1) := by
  unfold open_dev_usb_handle
  simp only [after_enumeration_eq, scan_busses_eq]
  cases hf : first_match (after_enumeration env st 1).usb_busses with
  | none =>
    have hf2 : first_match (env.enumerate st.n_enum) = none := hf
    simp [hf2, open_on_error]
  | some d =>
    have hf2 : first_match (env.enumerate st.n_enum) = some d := hf
    simp [hf2, open_matched, open_on_error]

/-- The non-probe open, by cases on the first match and the two outcomes. -/
theorem open_dev_usb_handle_open (env : Env) (st : State) :
    open_dev_usb_handle env st 0
      = match first_match (env.enumerate st.n_enum) with
        | none => (-1, none, after_enumeration env st 0)
        | some d =>
          match env.open_result st.n_open with
          | none => (-1, none, after_open env st [.usb_open d none] 1 0)
          | some h =>
            if env.claim_result st.n_claim ≠ 0 then
              (-1, none, after_open env st
                [.usb_open d (some h), .usb_claim_interface (some h) 0
                  (env.claim_result st.n_claim), .usb_close (some h)] 1 1)
            else
              (0, some h, after_open env st
                [.usb_open d (some h), .usb_claim_interface (some h) 0 0] 1 1) := by
  unfold open_dev_usb_handle
  simp only [after_enumeration_eq, scan_busses_eq]
  cases hf : first_match (after_enumeration env st 0).usb_busses with
  | none =>
    have hf2 : first_match (env.enumerate st.n_enum) = none := hf
    simp [hf2, open_on_error]
  | some d =>
    have hf2 : first_match (env.enumerate st.n_enum) = some d := hf
    cases ho : env.open_result st.n_open with
    | none =>
      simp [hf2, open_matched, open_on_error, usb_open, after_enumeration, after_open, ho]
    | some h =>
      by_cases hc : env.claim_result st.n_claim = 0
      · simp [hf2, open_matched, open_on_error, usb_open, usb_claim_interface,
          after_enumeration, after_open, ho, hc]
      · simp [hf2, open_matched, open_on_error, usb_open, usb_claim_interface, usb_close,
          State.log, after_enumeration, after_open, ho, hc]

theorem events_since_of_trace (st st' : State) (l : List Event)
    (h : st'.trace = st.trace ++ l) : events_since st st' = l := by
  simp [events_since, h]

theorem first_match_isSome (busses : List usb_bus) :
    (first_match busses).isSome
      ↔ ∃ bus ∈ busses, ∃ dev ∈ bus.devices,
          dev.descriptor.idVendor = 0x0525 ∧ dev.descriptor.idProduct = 0xa4a4 := by
  rw [← not_iff_not, Bool.not_eq_true, Option.not_isSome, Option.isNone_iff_eq_none]
  unfold first_match all_devices
  rw [List.find?_eq_none]
  simp only [List.mem_flatMap, is_device, CONFIG_VENDOR_ID, CONFIG_PRODUCT_ID]
  constructor
  · rintro h ⟨bus, hb, dev, hd, hv, hp⟩
    exact h dev ⟨bus, hb, hd⟩ (by simp [hv, hp])
  · rintro h dev ⟨bus, hb, hd⟩ hm
    apply h
    refine ⟨bus, hb, dev, hd, ?_⟩
    by_contra hne
    rw [not_and_or] at hne
    rcases hne with hne | hne
    · simp [hne] at hm
    · by_cases hv : dev.descriptor.idVendor = 1317 <;> simp [hv, hne] at hm

/-! ## Device matching and the enum-only probe -/

/-- C7: `is_device` is 1 exactly on vendor 0x0525 / product 0xa4a4 and 0 on any
other pair; the enum-only probe `find_device` (`open_dev_usb_handle` with
`enum_only = 1`) returns 0 iff some enumerated device carries that pair and -1
otherwise; it logs the enumeration only (no `usb_open`, no
`usb_claim_interface`) and leaves the output handle null. -/
theorem find_device_reports_presence (env : Env) (st : State) :
    (∀ dev : usb_device,
        is_device dev
          = if dev.descriptor.idVendor = 0x0525 ∧ dev.descriptor.idProduct = 0xa4a4
            then 1 else 0)
    ∧ find_device env st
        = ((open_dev_usb_handle env st 1).1, (open_dev_usb_handle env st 1).2.2)
    ∧ ((find_device env st).1 = 0
        ↔ ∃ bus ∈ env.enumerate st.n_enum, ∃ dev ∈ bus.devices,
            dev.descriptor.idVendor = 0x0525 ∧ dev.descriptor.idProduct = 0xa4a4)
    ∧ ((find_device env st).1 = -1
        ↔ ¬ ∃ bus ∈ env.enumerate st.n_enum, ∃ dev ∈ bus.devices,
            dev.descriptor.idVendor = 0x0525 ∧ dev.descriptor.idProduct = 0xa4a4)
    ∧ (open_dev_usb_handle env st 1).2.1 = none
    ∧ events_since st (find_device env st).2
        = [.call_open_dev_usb_handle 1, .usb_find_busses, .usb_find_devices]
    ∧ (∀ e ∈ events_since st (find_device env st).2,
        e.is_usb_open = false ∧ e.is_usb_claim_interface = false) := by
  have hev : events_since st (find_device env st).2
      = [.call_open_dev_usb_handle 1, .usb_find_busses, .usb_find_devices] := by
    apply events_since_of_trace
    simp [find_device, open_dev_usb_handle_probe, after_enumeration]
  refine ⟨?_, rfl, ?_, ?_, ?_, hev, ?_⟩
  · intro dev
    unfold is_device CONFIG_VENDOR_ID CONFIG_PRODUCT_ID
    by_cases hv : dev.descriptor.idVendor = 0x0525 <;>
      by_cases hp : dev.descriptor.idProduct = 0xa4a4 <;> simp [hv, hp]
  · rw [← first_match_isSome]
    simp only [find_device, open_dev_usb_handle_probe]
    cases first_match (env.enumerate st.n_enum) <;> simp
  · rw [← first_match_isSome]
    simp only [find_device, open_dev_usb_handle_probe]
    cases first_match (env.enumerate st.n_enum) <;> simp
  · simp [open_dev_usb_handle_probe]
  · rw [hev]
    intro e he
    simp only [List.mem_cons, List.mem_singleton, List.not_mem_nil, or_false] at he
    rcases he with rfl | rfl | rfl <;> exact ⟨rfl, rfl⟩

/-! ## Opening the device -/

/-- C6: `open_dev_usb_handle` with `enum_only = 0` returns 0 iff there is a first
matching device, `usb_open` returns a non-null handle and `usb_claim_interface`
returns 0; the output is then that handle and nothing is closed.  Otherwise it
returns -1 with a null output, and the `usb_close` calls made are exactly one
per handle `usb_open` returned.  In all cases at most one `usb_open` is made,
and only on the first match. -/
theorem open_dev_usb_handle_first_match (env : Env) (st : State) :
    ((open_dev_usb_handle env st 0).1 = 0
        ↔ ∃ d h, first_match (env.enumerate st.n_enum) = some d
            ∧ env.open_result st.n_open = some h ∧ env.claim_result st.n_claim = 0)
    ∧ (∀ d h, first_match (env.enumerate st.n_enum) = some d
          → env.open_result st.n_open = some h → env.claim_result st.n_claim = 0
          → (open_dev_usb_handle env st 0).2.1 = some h
            ∧ (events_since st (open_dev_usb_handle env st 0).2.2).filterMap Event.opened
                = [h]
            ∧ (events_since st (open_dev_usb_handle env st 0).2.2).filter Event.is_usb_close
                = [])
    ∧ ((open_dev_usb_handle env st 0).1 ≠ 0
        → (open_dev_usb_handle env st 0).1 = -1
          ∧ (open_dev_usb_handle env st 0).2.1 = none
          ∧ (events_since st (open_dev_usb_handle env st 0).2.2).filter Event.is_usb_close
              = ((events_since st (open_dev_usb_handle env st 0).2.2).filterMap
                    Event.opened).map (fun h => Event.usb_close (some h)))
    ∧ (events_since st (open_dev_usb_handle env st 0).2.2).filter Event.is_usb_open
        = match first_match (env.enumerate st.n_enum) with
          | none => []
          | some d => [.usb_open d (env.open_result st.n_open)] := by
  rw [open_dev_usb_handle_open]
  cases hf : first_match (env.enumerate st.n_enum) with
  | none =>
    have hev : events_since st (after_enumeration env st 0)
        = [.call_open_dev_usb_handle 0, .usb_find_busses, .usb_find_devices] :=
      events_since_of_trace _ _ _ rfl
    simp [hev, Event.is_usb_close, Event.is_usb_open, Event.opened]
  | some d =>
    cases ho : env.open_result st.n_open with
    | none =>
      have hev : events_since st (after_open env st [.usb_open d none] 1 0)
          = [.call_open_dev_usb_handle 0, .usb_find_busses, .usb_find_devices,
             .usb_open d none] :=
        events_since_of_trace _ _ _ (by simp [after_open, after_enumeration])
      simp [hev, Event.is_usb_close, Event.is_usb_open, Event.opened]
    | some h =>
      by_cases hc : env.claim_result st.n_claim = 0
      · have hev : events_since st (after_open env st
            [.usb_open d (some h), .usb_claim_interface (some h) 0 0] 1 1)
            = [.call_open_dev_usb_handle 0, .usb_find_busses, .usb_find_devices,
               .usb_open d (some h), .usb_claim_interface (some h) 0 0] :=
          events_since_of_trace _ _ _ (by simp [after_open, after_enumeration])
        simp [hc, hev, Event.is_usb_close, Event.is_usb_open, Event.opened]
      · have hev : events_since st (after_open env st
            [.usb_open d (some h), .usb_claim_interface (some h) 0
              (env.claim_result st.n_claim), .usb_close (some h)] 1 1)
            = [.call_open_dev_usb_handle 0, .usb_find_busses, .usb_find_devices,
               .usb_open d (some h), .usb_claim_interface (some h) 0
                 (env.claim_result st.n_claim), .usb_close (some h)] :=
          events_since_of_trace _ _ _ (by simp [after_open, after_enumeration])
        simp [hc, hev, Event.is_usb_close, Event.is_usb_open, Event.opened]

/-- Witness for C6: with the target device enumerated second, `usb_open`
returning handle 7 and the claim returning 0, the open returns 0 with output
handle 7, one `usb_open` on the target device and no `usb_close`. -/
theorem open_dev_usb_handle_first_match_witness :
    (open_dev_usb_handle retry_fails_env State.start 0).1 = 0
    ∧ (open_dev_usb_handle retry_fails_env State.start 0).2.1 = some 7
    ∧ (events_since State.start
        (open_dev_usb_handle retry_fails_env State.start 0).2.2).filterMap Event.opened = [7]
    ∧ (events_since State.start
        (open_dev_usb_handle retry_fails_env State.start 0).2.2).filter Event.is_usb_close = []
    ∧ (events_since State.start
        (open_dev_usb_handle retry_fails_env State.start 0).2.2).filter Event.is_usb_open
        = [.usb_open target_device (some 7)] :=
  have h := open_dev_usb_handle_first_match retry_fails_env State.start
  ⟨h.1.mpr ⟨target_device, 7, by decide, by decide, by decide⟩,
   (h.2.1 target_device 7 (by decide) (by decide) (by decide)).1,
   (h.2.1 target_device 7 (by decide) (by decide) (by decide)).2.1,
   (h.2.1 target_device 7 (by decide) (by decide) (by decide)).2.2,
   h.2.2.2⟩

/-! ## Lemmas on traces -/

theorem calls_append (a b : List Event) : calls (a ++ b) = calls a ++ calls b := by
  simp [calls]

theorem handle_discipline_append (o : List Nat) (a b : List Event) :
    handle_discipline o (a ++ b)
      = (handle_discipline o a).bind (fun o' => handle_discipline o' b) := by
  induction a generalizing o with
  | nil => simp [handle_discipline]
  | cons e es ih =>
    simp only [List.cons_append, handle_discipline]
    cases handle_step o e with
    | none => simp
    | some o' => simpa using ih o'

theorem send_recv_buf_eq (env : Env) (st : State) (handle : dev_handle) (buf : List Nat) :
    send_recv_buf env st handle buf
      = if env.write_result st.n_write < 0 then
          (-1, buf,
            { st with n_write := st.n_write + 1,
                      trace := st.trace ++ [.call_send_recv_buf,
                        .usb_bulk_write handle.usb_handle handle.ep_req buf CONFIG_BUF_SIZE
                          CONFIG_DEFAULT_TIMEOUT (env.write_result st.n_write)] })
        else
          (if (env.read_result st.n_read).1 < 0 then -1 else 0,
           (env.read_result st.n_read).2,
            { st with n_write := st.n_write + 1, n_read := st.n_read + 1,
                      trace := st.trace ++ [.call_send_recv_buf,
                        .usb_bulk_write handle.usb_handle handle.ep_req buf CONFIG_BUF_SIZE
                          CONFIG_DEFAULT_TIMEOUT (env.write_result st.n_write),
                        .usb_bulk_read handle.usb_handle handle.ep_rep CONFIG_BUF_SIZE
                          CONFIG_DEFAULT_TIMEOUT (env.read_result st.n_read).1] }) := by
  unfold send_recv_buf
  by_cases hw : env.write_result st.n_write < 0
  · simp [usb_bulk_write, State.log, hw]
  · by_cases hr : (env.read_result st.n_read).1 < 0
    · simp [usb_bulk_write, usb_bulk_read, State.log, hw, hr]
    · simp [usb_bulk_write, usb_bulk_read, State.log, hw, hr]

/-- What one `send_recv_buf` adds to the trace: its entry and bulk transfers. -/
theorem send_recv_buf_trace (env : Env) (st : State) (handle : dev_handle)
    (buf : List Nat) :
    ∃ evs, (send_recv_buf env st handle buf).2.2.trace = st.trace ++ evs
      ∧ calls evs = [.call_send_recv_buf]
      ∧ ∀ o, handle_discipline o evs = some o := by
  rw [send_recv_buf_eq]
  split_ifs
  · exact ⟨_, rfl, rfl, fun o => rfl⟩
  · exact ⟨_, rfl, rfl, fun o => rfl⟩
  · exact ⟨_, rfl, rfl, fun o => rfl⟩

theorem find_device_trace (env : Env) (st : State) :
    (find_device env st).2.trace
      = st.trace ++ [.call_open_dev_usb_handle 1, .usb_find_busses, .usb_find_devices] := by
  simp [find_device, open_dev_usb_handle_probe, after_enumeration]

theorem close_dev_usb_handle_trace (st : State) (h : Option Nat) :
    (close_dev_usb_handle st h).trace
      = st.trace ++ [.call_close_dev_usb_handle h, .usb_close h] := by
  simp [close_dev_usb_handle, usb_close, State.log]

/-- What a non-probe `open_dev_usb_handle` adds to the trace, and how its result
code, its output handle and the open handles relate. -/
theorem open_dev_usb_handle_trace (env : Env) (st : State) :
    ∃ evs, (open_dev_usb_handle env st 0).2.2.trace = st.trace ++ evs
      ∧ calls evs = [.call_open_dev_usb_handle 0]
      ∧ handle_discipline [] evs = some (open_dev_usb_handle env st 0).2.1.toList
      ∧ ((open_dev_usb_handle env st 0).1 = -1 ∧ (open_dev_usb_handle env st 0).2.1 = none
          ∨ (open_dev_usb_handle env st 0).1 = 0
            ∧ (open_dev_usb_handle env st 0).2.1 ≠ none) := by
  rw [open_dev_usb_handle_open]
  cases first_match (env.enumerate st.n_enum) with
  | none =>
    exact ⟨[.call_open_dev_usb_handle 0, .usb_find_busses, .usb_find_devices],
      rfl, rfl, rfl, Or.inl ⟨rfl, rfl⟩⟩
  | some d =>
    cases env.open_result st.n_open with
    | none =>
      refine ⟨[.call_open_dev_usb_handle 0, .usb_find_busses, .usb_find_devices,
        .usb_open d none], ?_, rfl, rfl, Or.inl ⟨rfl, rfl⟩⟩
      simp [after_open, after_enumeration]
    | some h =>
      by_cases hc : env.claim_result st.n_claim = 0
      · dsimp only
        rw [if_neg (not_not.mpr hc)]
        refine ⟨[.call_open_dev_usb_handle 0, .usb_find_busses, .usb_find_devices,
          .usb_open d (some h), .usb_claim_interface (some h) 0 0], ?_, rfl, rfl,
          Or.inr ⟨rfl, by simp⟩⟩
        simp [after_open, after_enumeration]
      · dsimp only
        rw [if_pos hc]
        refine ⟨[.call_open_dev_usb_handle 0, .usb_find_busses, .usb_find_devices,
          .usb_open d (some h), .usb_claim_interface (some h) 0
            (env.claim_result st.n_claim), .usb_close (some h)], ?_, rfl, ?_,
          Or.inl ⟨rfl, rfl⟩⟩
        · simp [after_open, after_enumeration]
        · simp [handle_discipline, handle_step]

theorem send_recv_buf_or_reopen_eq (env : Env) (st : State) (handle : dev_handle)
    (buf : List Nat) :
    send_recv_buf_or_reopen env st handle buf
      = if (send_recv_buf env st handle buf).1 = -1 then
          if (find_device env (send_recv_buf env st handle buf).2.2).1 = -1 then
            (-1, handle, (send_recv_buf env st handle buf).2.1,
              (find_device env (send_recv_buf env st handle buf).2.2).2)
          else
            if (open_dev_usb_handle env
                  (close_dev_usb_handle
                    (find_device env (send_recv_buf env st handle buf).2.2).2
                    handle.usb_handle) 0).1 = -1 then
              (-1,
               { handle with usb_handle := (open_dev_usb_handle env
                  (close_dev_usb_handle
                    (find_device env (send_recv_buf env st handle buf).2.2).2
                    handle.usb_handle) 0).2.1 },
               (send_recv_buf env st handle buf).2.1,
               (open_dev_usb_handle env
                  (close_dev_usb_handle
                    (find_device env (send_recv_buf env st handle buf).2.2).2
                    handle.usb_handle) 0).2.2)
            else
              (0,
               { handle with usb_handle := (open_dev_usb_handle env
                  (close_dev_usb_handle
                    (find_device env (send_recv_buf env st handle buf).2.2).2
                    handle.usb_handle) 0).2.1 },
               (send_recv_buf env
                  (open_dev_usb_handle env
                    (close_dev_usb_handle
                      (find_device env (send_recv_buf env st handle buf).2.2).2
                      handle.usb_handle) 0).2.2
                  { handle with usb_handle := (open_dev_usb_handle env
                    (close_dev_usb_handle
                      (find_device env (send_recv_buf env st handle buf).2.2).2
                      handle.usb_handle) 0).2.1 }
                  (send_recv_buf env st handle buf).2.1).2)
        else (0, handle, (send_recv_buf env st handle buf).2) := rfl

theorem count_calls (a : Event) (ha : a.is_call = true) (evs : List Event) :
    evs.count a = (calls evs).count a := by
  unfold calls
  rw [List.count_filter ha]

theorem countP_close_calls (evs : List Event) :
    evs.countP Event.is_call_close_dev_usb_handle
      = (calls evs).countP Event.is_call_close_dev_usb_handle := by
  unfold calls
  rw [List.countP_filter]
  congr 1
  funext e
  cases e <;> rfl

/-- The four ways through `send_recv_buf_or_reopen`, with the events each logs. -/
theorem send_recv_buf_or_reopen_cases (env : Env) (st : State) (handle : dev_handle)
    (buf : List Nat) :
    ∃ e1, calls e1 = [.call_send_recv_buf] ∧ (∀ o, handle_discipline o e1 = some o)
      ∧ ((send_recv_buf env st handle buf).1 ≠ -1
          ∧ (send_recv_buf_or_reopen env st handle buf).1 = 0
          ∧ (send_recv_buf_or_reopen env st handle buf).2.1 = handle
          ∧ (send_recv_buf_or_reopen env st handle buf).2.2.2.trace = st.trace ++ e1
        ∨ (send_recv_buf env st handle buf).1 = -1
          ∧ (find_device env (send_recv_buf env st handle buf).2.2).1 = -1
          ∧ (send_recv_buf_or_reopen env st handle buf).1 = -1
          ∧ (send_recv_buf_or_reopen env st handle buf).2.1 = handle
          ∧ (send_recv_buf_or_reopen env st handle buf).2.2.2.trace
              = st.trace
                ++ (e1 ++ [.call_open_dev_usb_handle 1, .usb_find_busses, .usb_find_devices])
        ∨ (send_recv_buf env st handle buf).1 = -1
          ∧ (find_device env (send_recv_buf env st handle buf).2.2).1 ≠ -1
          ∧ (open_dev_usb_handle env
                (close_dev_usb_handle
                  (find_device env (send_recv_buf env st handle buf).2.2).2
                  handle.usb_handle) 0).1 = -1
          ∧ (send_recv_buf_or_reopen env st handle buf).1 = -1
          ∧ (send_recv_buf_or_reopen env st handle buf).2.1
              = { handle with usb_handle := none }
          ∧ (∃ eo, calls eo = [.call_open_dev_usb_handle 0]
              ∧ handle_discipline [] eo = some []
              ∧ (send_recv_buf_or_reopen env st handle buf).2.2.2.trace
                  = st.trace
                    ++ (e1 ++ [.call_open_dev_usb_handle 1, .usb_find_busses,
                          .usb_find_devices]
                      ++ [.call_close_dev_usb_handle handle.usb_handle,
                          .usb_close handle.usb_handle] ++ eo))
        ∨ (send_recv_buf env st handle buf).1 = -1
          ∧ (find_device env (send_recv_buf env st handle buf).2.2).1 ≠ -1
          ∧ (open_dev_usb_handle env
                (close_dev_usb_handle
                  (find_device env (send_recv_buf env st handle buf).2.2).2
                  handle.usb_handle) 0).1 ≠ -1
          ∧ (send_recv_buf_or_reopen env st handle buf).1 = 0
          ∧ (∃ h eo e2,
              (send_recv_buf_or_reopen env st handle buf).2.1
                = { handle with usb_handle := some h }
              ∧ calls eo = [.call_open_dev_usb_handle 0]
              ∧ handle_discipline [] eo = some [h]
              ∧ calls e2 = [.call_send_recv_buf]
              ∧ (∀ o, handle_discipline o e2 = some o)
              ∧ (send_recv_buf_or_reopen env st handle buf).2.2.2.trace
                  = st.trace
                    ++ (e1 ++ [.call_open_dev_usb_handle 1, .usb_find_busses,
                          .usb_find_devices]
                      ++ [.call_close_dev_usb_handle handle.usb_handle,
                          .usb_close handle.usb_handle] ++ eo ++ e2))) := by
  obtain ⟨e1, t1, c1, d1⟩ := send_recv_buf_trace env st handle buf
  refine ⟨e1, c1, d1, ?_⟩
  rw [send_recv_buf_or_reopen_eq]
  by_cases h1 : (send_recv_buf env st handle buf).1 = -1
  · rw [if_pos h1]
    have tp := find_device_trace env (send_recv_buf env st handle buf).2.2
    by_cases hp : (find_device env (send_recv_buf env st handle buf).2.2).1 = -1
    · rw [if_pos hp]
      refine Or.inr (Or.inl ⟨h1, hp, rfl, rfl, ?_⟩)
      simp only [tp, t1, List.append_assoc]
    · rw [if_neg hp]
      have tc := close_dev_usb_handle_trace
        (find_device env (send_recv_buf env st handle buf).2.2).2 handle.usb_handle
      obtain ⟨eo, topen, co, dO, ho⟩ := open_dev_usb_handle_trace env
        (close_dev_usb_handle (find_device env (send_recv_buf env st handle buf).2.2).2
          handle.usb_handle)
      rcases ho with ⟨ho1, ho2⟩ | ⟨ho1, ho2⟩
      · rw [if_pos ho1]
        refine Or.inr (Or.inr (Or.inl ⟨h1, hp, ho1, rfl, ?_, eo, co, ?_, ?_⟩))
        · simp only [ho2]
        · rw [dO, ho2]; rfl
        · simp only [topen, tc, tp, t1, List.append_assoc]
      · have ho3 : (open_dev_usb_handle env
            (close_dev_usb_handle (find_device env (send_recv_buf env st handle buf).2.2).2
              handle.usb_handle) 0).1 ≠ -1 := by rw [ho1]; decide
        rw [if_neg ho3]
        obtain ⟨h, hh⟩ := Option.ne_none_iff_exists'.mp ho2
        obtain ⟨e2, t2, c2, d2⟩ := send_recv_buf_trace env
          (open_dev_usb_handle env
            (close_dev_usb_handle (find_device env (send_recv_buf env st handle buf).2.2).2
              handle.usb_handle) 0).2.2
          { handle with usb_handle := (open_dev_usb_handle env
            (close_dev_usb_handle (find_device env (send_recv_buf env st handle buf).2.2).2
              handle.usb_handle) 0).2.1 }
          (send_recv_buf env st handle buf).2.1
        refine Or.inr (Or.inr (Or.inr ⟨h1, hp, ho3, rfl, h, eo, e2, ?_, co, ?_, c2, d2, ?_⟩))
        · simp only [hh]
        · rw [dO, hh]; rfl
        · simp only [t2, topen, tc, tp, t1, List.append_assoc]
  · rw [if_neg h1]
    exact Or.inl ⟨h1, rfl, rfl, t1⟩

/-! ## Synchronous transfer -/

/-- C5 as stated fails: with a bulk write of 32 bytes and a bulk read that
delivers 5 bytes (both results in the range the claim allows), `send_recv_buf`
returns 0 although the read did not deliver 32 bytes. -/
theorem send_recv_buf_accepts_short_read :
    ¬ ∀ (env : Env) (st : State) (handle : dev_handle) (buf : List Nat),
        (env.write_result st.n_write < 0
          ∨ (0 ≤ env.write_result st.n_write ∧ env.write_result st.n_write ≤ 32)) →
        ((env.read_result st.n_read).1 < 0
          ∨ (0 ≤ (env.read_result st.n_read).1 ∧ (env.read_result st.n_read).1 ≤ 32)) →
        (send_recv_buf env st handle buf).1 = -1
          ∨ ((send_recv_buf env st handle buf).1 = 0
              ∧ env.write_result st.n_write = 32 ∧ (env.read_result st.n_read).1 = 32) := by
  intro h
  have h0 := h short_read_env State.start example_session request_buf (by decide) (by decide)
  revert h0
  decide

/-- C5, amended: `send_recv_buf` returns 0 or -1; it returns 0 exactly when the
bulk write and the bulk read both return a non-negative value (a byte count, not
necessarily 32), and -1 exactly when one of them returns a negative value.  When
the bulk write fails no bulk read is issued; when it does not fail exactly one
bulk read follows, and on a return of 0 the buffer is what that read left. -/
theorem send_recv_buf_result (env : Env) (st : State) (handle : dev_handle)
    (buf : List Nat) :
    ((send_recv_buf env st handle buf).1 = 0
        ↔ 0 ≤ env.write_result st.n_write ∧ 0 ≤ (env.read_result st.n_read).1)
    ∧ ((send_recv_buf env st handle buf).1 = -1
        ↔ env.write_result st.n_write < 0 ∨ (env.read_result st.n_read).1 < 0)
    ∧ events_since st (send_recv_buf env st handle buf).2.2
        = (if env.write_result st.n_write < 0 then
            [.call_send_recv_buf,
             .usb_bulk_write handle.usb_handle handle.ep_req buf 32 2000
               (env.write_result st.n_write)]
          else
            [.call_send_recv_buf,
             .usb_bulk_write handle.usb_handle handle.ep_req buf 32 2000
               (env.write_result st.n_write),
             .usb_bulk_read handle.usb_handle handle.ep_rep 32 2000
               (env.read_result st.n_read).1])
    ∧ (events_since st (send_recv_buf env st handle buf).2.2).countP Event.is_usb_bulk_read
        = (if env.write_result st.n_write < 0 then 0 else 1)
    ∧ ((send_recv_buf env st handle buf).1 = 0
        → (send_recv_buf env st handle buf).2.1 = (env.read_result st.n_read).2) := by
  rw [send_recv_buf_eq]
  by_cases hw : env.write_result st.n_write < 0
  · rw [if_pos hw, if_pos hw, if_pos hw]
    refine ⟨?_, ?_, events_since_of_trace _ _ _ rfl, ?_, ?_⟩
    · constructor
      · intro h; exact absurd (show (-1 : Int) = 0 from h) (by decide)
      · intro h; omega
    · exact ⟨fun _ => Or.inl hw, fun _ => rfl⟩
    · rw [events_since_of_trace _ _ _ rfl]; rfl
    · intro h; exact absurd (show (-1 : Int) = 0 from h) (by decide)
  · rw [if_neg hw, if_neg hw, if_neg hw]
    refine ⟨?_, ?_, events_since_of_trace _ _ _ rfl, ?_, fun _ => rfl⟩
    · by_cases hr : (env.read_result st.n_read).1 < 0
      · simp only [if_pos hr]
        constructor
        · intro h; exact absurd h (by decide)
        · intro h; omega
      · simp only [if_neg hr]
        constructor
        · intro _; omega
        · intro _; trivial
    · by_cases hr : (env.read_result st.n_read).1 < 0
      · simp only [if_pos hr]
        exact ⟨fun _ => Or.inr hr, fun _ => trivial⟩
      · simp only [if_neg hr]
        constructor
        · intro h; exact absurd h (by decide)
        · intro h; omega
    · rw [events_since_of_trace _ _ _ rfl]; rfl

/-! ## Transfer with reopen on failure -/

/-- C1, failing input: every bulk write fails, the device is enumerated, and the
reopen succeeds on handle 7.  The first `send_recv_buf` returns -1, the probe
returns 0, the reopening `open_dev_usb_handle` returns 0, the second
`send_recv_buf` returns -1, and `send_recv_buf_or_reopen` returns 0. -/
theorem send_recv_buf_or_reopen_drops_retry_result :
    (send_recv_buf retry_fails_env State.start example_session request_buf).1 = -1
    ∧ (find_device retry_fails_env
        (send_recv_buf retry_fails_env State.start example_session request_buf).2.2).1 = 0
    ∧ (open_dev_usb_handle retry_fails_env
        (close_dev_usb_handle
          (find_device retry_fails_env
            (send_recv_buf retry_fails_env State.start example_session request_buf).2.2).2
          example_session.usb_handle) 0).1 = 0
    ∧ (send_recv_buf retry_fails_env
        (open_dev_usb_handle retry_fails_env
          (close_dev_usb_handle
            (find_device retry_fails_env
              (send_recv_buf retry_fails_env State.start example_session request_buf).2.2).2
            example_session.usb_handle) 0).2.2
        { example_session with usb_handle := some 7 } request_buf).1 = -1
    ∧ (send_recv_buf_or_reopen retry_fails_env State.start example_session request_buf).1
        = 0
    ∧ calls (send_recv_buf_or_reopen retry_fails_env State.start example_session
        request_buf).2.2.2.trace
        = [.call_send_recv_buf, .call_open_dev_usb_handle 1,
           .call_close_dev_usb_handle (some 3), .call_open_dev_usb_handle 0,
           .call_send_recv_buf] := by
  decide


/-- C2: one call of `send_recv_buf_or_reopen` enters `send_recv_buf` at most
twice, `close_dev_usb_handle` at most once and `open_dev_usb_handle` with
`enum_only = 0` at most once, whatever the environment does; the function
entries it makes are one of four sequences, in which the close comes right
before the non-probe open. -/
theorem send_recv_buf_or_reopen_bounded (env : Env) (st : State) (handle : dev_handle)
    (buf : List Nat) :
    (events_since st (send_recv_buf_or_reopen env st handle buf).2.2.2).count
        .call_send_recv_buf ≤ 2
    ∧ (events_since st (send_recv_buf_or_reopen env st handle buf).2.2.2).countP
        Event.is_call_close_dev_usb_handle ≤ 1
    ∧ (events_since st (send_recv_buf_or_reopen env st handle buf).2.2.2).count
        (.call_open_dev_usb_handle 0) ≤ 1
    ∧ (calls (events_since st (send_recv_buf_or_reopen env st handle buf).2.2.2)
          = [.call_send_recv_buf]
        ∨ calls (events_since st (send_recv_buf_or_reopen env st handle buf).2.2.2)
          = [.call_send_recv_buf, .call_open_dev_usb_handle 1]
        ∨ calls (events_since st (send_recv_buf_or_reopen env st handle buf).2.2.2)
          = [.call_send_recv_buf, .call_open_dev_usb_handle 1,
             .call_close_dev_usb_handle handle.usb_handle, .call_open_dev_usb_handle 0]
        ∨ calls (events_since st (send_recv_buf_or_reopen env st handle buf).2.2.2)
          = [.call_send_recv_buf, .call_open_dev_usb_handle 1,
             .call_close_dev_usb_handle handle.usb_handle, .call_open_dev_usb_handle 0,
             .call_send_recv_buf]) := by
  obtain ⟨e1, c1, -, hcases⟩ := send_recv_buf_or_reopen_cases env st handle buf
  rcases hcases with ⟨-, -, -, hev⟩ | ⟨-, -, -, -, hev⟩ | ⟨-, -, -, -, -, eo, co, -, hev⟩
      | ⟨-, -, -, -, h, eo, e2, -, co, -, c2, -, hev⟩
  · replace hev := events_since_of_trace _ _ _ hev
    have hc : calls (events_since st (send_recv_buf_or_reopen env st handle buf).2.2.2)
        = [.call_send_recv_buf] := by
      rw [hev, c1]
    rw [count_calls .call_send_recv_buf rfl, countP_close_calls,
      count_calls (.call_open_dev_usb_handle 0) rfl, hc]
    simp [Event.is_call_close_dev_usb_handle]
  · replace hev := events_since_of_trace _ _ _ hev
    have hc : calls (events_since st (send_recv_buf_or_reopen env st handle buf).2.2.2)
        = [.call_send_recv_buf, .call_open_dev_usb_handle 1] := by
      rw [hev, calls_append, c1]; rfl
    rw [count_calls .call_send_recv_buf rfl, countP_close_calls,
      count_calls (.call_open_dev_usb_handle 0) rfl, hc]
    simp [Event.is_call_close_dev_usb_handle]
  · replace hev := events_since_of_trace _ _ _ hev
    have hc : calls (events_since st (send_recv_buf_or_reopen env st handle buf).2.2.2)
        = [.call_send_recv_buf, .call_open_dev_usb_handle 1,
           .call_close_dev_usb_handle handle.usb_handle, .call_open_dev_usb_handle 0] := by
      rw [hev, calls_append, calls_append, calls_append, c1, co]; rfl
    rw [count_calls .call_send_recv_buf rfl, countP_close_calls,
      count_calls (.call_open_dev_usb_handle 0) rfl, hc]
    simp [Event.is_call_close_dev_usb_handle]
  · replace hev := events_since_of_trace _ _ _ hev
    have hc : calls (events_since st (send_recv_buf_or_reopen env st handle buf).2.2.2)
        = [.call_send_recv_buf, .call_open_dev_usb_handle 1,
           .call_close_dev_usb_handle handle.usb_handle, .call_open_dev_usb_handle 0,
           .call_send_recv_buf] := by
      rw [hev, calls_append, calls_append, calls_append, calls_append, c1, co, c2]; rfl
    rw [count_calls .call_send_recv_buf rfl, countP_close_calls,
      count_calls (.call_open_dev_usb_handle 0) rfl, hc]
    simp [Event.is_call_close_dev_usb_handle]

/-- C3: when the first `send_recv_buf` fails and the probe `find_device` returns
-1, `send_recv_buf_or_reopen` returns -1, leaves the session (`usb_handle`,
`ep_req`, `ep_rep`) as it was, and enters only `send_recv_buf` once and the
probe: no `close_dev_usb_handle`, no non-probe `open_dev_usb_handle`, no second
`send_recv_buf`. -/
theorem send_recv_buf_or_reopen_device_absent (env : Env) (st : State)
    (handle : dev_handle) (buf : List Nat)
    (hfail : (send_recv_buf env st handle buf).1 = -1)
    (habsent : (find_device env (send_recv_buf env st handle buf).2.2).1 = -1) :
    (send_recv_buf_or_reopen env st handle buf).1 = -1
    ∧ (send_recv_buf_or_reopen env st handle buf).2.1 = handle
    ∧ calls (events_since st (send_recv_buf_or_reopen env st handle buf).2.2.2)
        = [.call_send_recv_buf, .call_open_dev_usb_handle 1]
    ∧ (events_since st (send_recv_buf_or_reopen env st handle buf).2.2.2).countP
        Event.is_call_close_dev_usb_handle = 0
    ∧ (events_since st (send_recv_buf_or_reopen env st handle buf).2.2.2).count
        (.call_open_dev_usb_handle 0) = 0
    ∧ (events_since st (send_recv_buf_or_reopen env st handle buf).2.2.2).count
        .call_send_recv_buf = 1 := by
  obtain ⟨e1, c1, -, hcases⟩ := send_recv_buf_or_reopen_cases env st handle buf
  rcases hcases with ⟨h1, -⟩ | ⟨-, -, hr, hh, hev⟩ | ⟨-, hp, -⟩ | ⟨-, hp, -⟩
  · exact absurd hfail h1
  · replace hev := events_since_of_trace _ _ _ hev
    have hc : calls (events_since st (send_recv_buf_or_reopen env st handle buf).2.2.2)
        = [.call_send_recv_buf, .call_open_dev_usb_handle 1] := by
      rw [hev, calls_append, c1]; rfl
    rw [count_calls .call_send_recv_buf rfl, countP_close_calls,
      count_calls (.call_open_dev_usb_handle 0) rfl, hc]
    refine ⟨hr, hh, rfl, ?_, ?_, ?_⟩ <;> simp [Event.is_call_close_dev_usb_handle]
  · exact absurd habsent hp
  · exact absurd habsent hp

/-- Witness for C3: bulk writes fail and only a foreign device is enumerated. -/
theorem send_recv_buf_or_reopen_device_absent_witness :
    (send_recv_buf absent_env State.start example_session request_buf).1 = -1
    ∧ (find_device absent_env
        (send_recv_buf absent_env State.start example_session request_buf).2.2).1 = -1
    ∧ (send_recv_buf_or_reopen absent_env State.start example_session request_buf).1 = -1
    ∧ (send_recv_buf_or_reopen absent_env State.start example_session request_buf).2.1
        = example_session
    ∧ calls (events_since State.start
        (send_recv_buf_or_reopen absent_env State.start example_session request_buf).2.2.2)
        = [.call_send_recv_buf, .call_open_dev_usb_handle 1]
    ∧ (events_since State.start
        (send_recv_buf_or_reopen absent_env State.start example_session
          request_buf).2.2.2).countP Event.is_call_close_dev_usb_handle = 0
    ∧ (events_since State.start
        (send_recv_buf_or_reopen absent_env State.start example_session
          request_buf).2.2.2).count (.call_open_dev_usb_handle 0) = 0
    ∧ (events_since State.start
        (send_recv_buf_or_reopen absent_env State.start example_session
          request_buf).2.2.2).count .call_send_recv_buf = 1 :=
  ⟨by decide, by decide,
    send_recv_buf_or_reopen_device_absent absent_env State.start example_session
      request_buf (by decide) (by decide)⟩

/-- C4: when the first `send_recv_buf` fails, the probe reports the device
present and the reopening `open_dev_usb_handle(.., 0)` fails,
`send_recv_buf_or_reopen` returns -1 with the session's `usb_handle` null (the
endpoints unchanged); it entered `close_dev_usb_handle` once, then the non-probe
`open_dev_usb_handle` once, and `send_recv_buf` once in all. -/
theorem send_recv_buf_or_reopen_reopen_fails (env : Env) (st : State)
    (handle : dev_handle) (buf : List Nat)
    (hfail : (send_recv_buf env st handle buf).1 = -1)
    (hpresent : (find_device env (send_recv_buf env st handle buf).2.2).1 ≠ -1)
    (hreopen : (open_dev_usb_handle env
        (close_dev_usb_handle (find_device env (send_recv_buf env st handle buf).2.2).2
          handle.usb_handle) 0).1 = -1) :
    (send_recv_buf_or_reopen env st handle buf).1 = -1
    ∧ (send_recv_buf_or_reopen env st handle buf).2.1.usb_handle = none
    ∧ (send_recv_buf_or_reopen env st handle buf).2.1.ep_req = handle.ep_req
    ∧ (send_recv_buf_or_reopen env st handle buf).2.1.ep_rep = handle.ep_rep
    ∧ calls (events_since st (send_recv_buf_or_reopen env st handle buf).2.2.2)
        = [.call_send_recv_buf, .call_open_dev_usb_handle 1,
           .call_close_dev_usb_handle handle.usb_handle, .call_open_dev_usb_handle 0]
    ∧ (events_since st (send_recv_buf_or_reopen env st handle buf).2.2.2).countP
        Event.is_call_close_dev_usb_handle = 1
    ∧ (events_since st (send_recv_buf_or_reopen env st handle buf).2.2.2).count
        (.call_open_dev_usb_handle 0) = 1
    ∧ (events_since st (send_recv_buf_or_reopen env st handle buf).2.2.2).count
        .call_send_recv_buf = 1 := by
  obtain ⟨e1, c1, -, hcases⟩ := send_recv_buf_or_reopen_cases env st handle buf
  rcases hcases with ⟨h1, -⟩ | ⟨-, hp, -⟩ | ⟨-, -, -, hr, hh, eo, co, -, hev⟩ | ⟨-, -, ho, -⟩
  · exact absurd hfail h1
  · exact absurd hp hpresent
  · replace hev := events_since_of_trace _ _ _ hev
    have hc : calls (events_since st (send_recv_buf_or_reopen env st handle buf).2.2.2)
        = [.call_send_recv_buf, .call_open_dev_usb_handle 1,
           .call_close_dev_usb_handle handle.usb_handle, .call_open_dev_usb_handle 0] := by
      rw [hev, calls_append, calls_append, calls_append, c1, co]; rfl
    rw [count_calls .call_send_recv_buf rfl, countP_close_calls,
      count_calls (.call_open_dev_usb_handle 0) rfl, hc, hh]
    refine ⟨hr, rfl, rfl, rfl, rfl, ?_, ?_, ?_⟩ <;> simp [Event.is_call_close_dev_usb_handle]
  · exact absurd hreopen ho

/-- Witness for C4: bulk writes fail, the device is enumerated, `usb_open`
returns NULL. -/
theorem send_recv_buf_or_reopen_reopen_fails_witness :
    (send_recv_buf reopen_fails_env State.start example_session request_buf).1 = -1
    ∧ (find_device reopen_fails_env
        (send_recv_buf reopen_fails_env State.start example_session request_buf).2.2).1
        ≠ -1
    ∧ (open_dev_usb_handle reopen_fails_env
        (close_dev_usb_handle
          (find_device reopen_fails_env
            (send_recv_buf reopen_fails_env State.start example_session
              request_buf).2.2).2
          example_session.usb_handle) 0).1 = -1
    ∧ (send_recv_buf_or_reopen reopen_fails_env State.start example_session
        request_buf).1 = -1
    ∧ (send_recv_buf_or_reopen reopen_fails_env State.start example_session
        request_buf).2.1.usb_handle = none :=
  have h := send_recv_buf_or_reopen_reopen_fails reopen_fails_env State.start
    example_session request_buf (by decide) (by decide) (by decide)
  ⟨by decide, by decide, by decide, h.1, h.2.1⟩

/-! ## Closing the session -/

/-- C9: `dev_close` on a session whose `usb_handle` is null only frees the
session (no `close_dev_usb_handle`, no `usb_close`); on a session with handle
`h` it enters `close_dev_usb_handle` on `h` once, which calls `usb_close` on `h`
once, and then frees the session.  `dev_close` is a total function. -/
theorem dev_close_events (st : State) (handle : dev_handle) :
    events_since st (dev_close st handle)
      = match handle.usb_handle with
        | none => [.free]
        | some h => [.call_close_dev_usb_handle (some h), .usb_close (some h), .free] := by
  apply events_since_of_trace
  unfold dev_close
  cases hh : handle.usb_handle with
  | none => simp [free_dev_handle, State.log]
  | some h => simp [free_dev_handle, close_dev_usb_handle, usb_close, State.log]


/-! ## Opening the session -/

/-- C8, failing input: the device is enumerated, `usb_open` returns handle 7, the
claim succeeds and `malloc` returns NULL.  `open_dev_usb_handle` returns 0,
`alloc_dev_handle` returns NULL, and `dev_open` returns -1 having logged no
`usb_close`: handle 7 is still open when it returns. -/
theorem dev_open_leaks_handle_when_alloc_fails :
    (open_dev_usb_handle malloc_fails_env State.start 0).1 = 0
    ∧ (alloc_dev_handle malloc_fails_env
        (open_dev_usb_handle malloc_fails_env State.start 0).2.2).1 = none
    ∧ (dev_open malloc_fails_env State.start).1 = -1
    ∧ (dev_open malloc_fails_env State.start).2.2.2.trace
        = [.call_open_dev_usb_handle 0, .usb_find_busses, .usb_find_devices,
           .usb_open target_device (some 7), .usb_claim_interface (some 7) 0 0,
           .malloc false]
    ∧ (dev_open malloc_fails_env State.start).2.2.2.trace.countP Event.is_usb_close = 0
    ∧ handle_discipline [] (dev_open malloc_fails_env State.start).2.2.2.trace
        = some [7] := by
  decide

/-- The three ways through `dev_open`, with the events each logs. -/
theorem dev_open_cases (env : Env) (st : State) :
    ∃ eo,
      ((dev_open env st).1 = -1
          ∧ (dev_open env st).2.2.2.trace = st.trace ++ eo
          ∧ handle_discipline [] eo = some [])
      ∨ ((dev_open env st).1 = -1
          ∧ ∃ h, (dev_open env st).2.2.2.trace = st.trace ++ eo ++ [.malloc false]
              ∧ handle_discipline [] eo = some [h])
      ∨ ((dev_open env st).1 = 0
          ∧ ∃ h s, (dev_open env st).2.1 = some s ∧ s.usb_handle = some h
              ∧ (dev_open env st).2.2.2.trace = st.trace ++ eo ++ [.malloc true]
              ∧ handle_discipline [] eo = some [h]) := by
  obtain ⟨eo, topen, -, dO, ho⟩ := open_dev_usb_handle_trace env st
  refine ⟨eo, ?_⟩
  unfold dev_open
  rcases hopen : open_dev_usb_handle env st 0 with ⟨error, usb_handle, st1⟩
  rw [hopen] at topen dO ho
  simp only at topen dO ho ⊢
  rcases ho with ⟨ho1, ho2⟩ | ⟨ho1, ho2⟩
  · subst ho1 ho2
    rw [if_pos rfl]
    exact Or.inl ⟨rfl, topen, dO⟩
  · subst ho1
    obtain ⟨h, rfl⟩ := Option.ne_none_iff_exists'.mp ho2
    rw [if_neg (by decide)]
    unfold alloc_dev_handle
    cases hm : env.malloc_result st1.n_malloc with
    | none =>
      refine Or.inr (Or.inl ⟨rfl, h, ?_, dO⟩)
      simp [topen]
    | some block =>
      refine Or.inr (Or.inr ⟨rfl, h, _, rfl, rfl, ?_, dO⟩)
      simp [topen]

theorem handle_step_length (o o' : List Nat) (e : Event)
    (hs : handle_step o e = some o') (hl : o.length ≤ 1) : o'.length ≤ 1 := by
  cases e with
  | usb_open dev ret =>
    cases ret with
    | none => simp only [handle_step, Option.some.injEq] at hs; rw [← hs]; exact hl
    | some h =>
      simp only [handle_step] at hs
      split_ifs at hs with hlen
      simp only [Option.some.injEq] at hs
      rw [← hs]; exact hlen
  | usb_close h =>
    cases h with
    | none => simp [handle_step] at hs
    | some h =>
      simp only [handle_step] at hs
      split_ifs at hs
      simp only [Option.some.injEq] at hs
      rw [← hs]
      exact le_trans (List.length_erase_le h o) hl
  | _ => simp only [handle_step, Option.some.injEq] at hs; rw [← hs]; exact hl

/-- A trace that passes the bookkeeping passes it on every initial segment, with
at most one handle open after it. -/
theorem handle_discipline_initial_segment (o o' : List Nat) (a b : List Event)
    (hl : o.length ≤ 1) (hd : handle_discipline o (a ++ b) = some o') :
    ∃ opened, handle_discipline o a = some opened ∧ opened.length ≤ 1 := by
  induction a generalizing o with
  | nil => exact ⟨o, rfl, hl⟩
  | cons e es ih =>
    simp only [List.cons_append, handle_discipline] at hd ⊢
    cases hs : handle_step o e with
    | none => simp [hs] at hd
    | some o1 =>
      rw [hs] at hd
      exact ih o1 (handle_step_length o o1 e hs hl) hd

theorem dev_close_trace (st : State) (handle : dev_handle) :
    (dev_close st handle).trace
      = st.trace ++ (match handle.usb_handle with
          | none => [.free]
          | some h => [.call_close_dev_usb_handle (some h), .usb_close (some h), .free]) := by
  unfold dev_close
  cases hh : handle.usb_handle with
  | none => simp [free_dev_handle, State.log]
  | some h => simp [free_dev_handle, close_dev_usb_handle, usb_close, State.log]

/-- The whole run of `main` passes the handle bookkeeping. -/
theorem main_trace_discipline (env : Env) :
    ∃ opened, handle_discipline [] (main env State.start).2.trace = some opened := by
  unfold main initialize_
  simp only [ne_eq, not_true_eq_false, if_false]
  obtain ⟨eo, hdo⟩ := dev_open_cases env
    (usb_init { State.start with is_mach_le := get_is_mach_le env })
  have hinit : (usb_init { State.start with is_mach_le := get_is_mach_le env }).trace
      = [.usb_init] := rfl
  rw [hinit] at hdo
  rcases hopen : dev_open env (usb_init { State.start with is_mach_le := get_is_mach_le env })
    with ⟨e1, handle, uh, st2⟩
  rw [hopen] at hdo
  simp only at hdo ⊢
  rcases hdo with ⟨he, ht, hd⟩ | ⟨he, h, ht, hd⟩ | ⟨he, h, s, hs, hsh, ht, hd⟩
  · subst he
    rw [if_pos (by decide)]
    refine ⟨[], ?_⟩
    simp only [finalize, ht]
    rw [handle_discipline_append]
    simp [handle_discipline, handle_step, hd]
  · subst he
    rw [if_pos (by decide)]
    refine ⟨[h], ?_⟩
    simp only [finalize, ht]
    rw [handle_discipline_append, handle_discipline_append]
    simp [handle_discipline, handle_step, hd]
  · subst he hs
    rw [if_neg (by decide)]
    simp only [finalize, dev_echo]
    have hst2 : handle_discipline [] st2.trace = some [h] := by
      rw [ht, handle_discipline_append, handle_discipline_append]
      simp [handle_discipline, handle_step, hd]
    obtain ⟨r1, -, d1, hcases⟩ := send_recv_buf_or_reopen_cases env st2 s
      (List.replicate CONFIG_BUF_SIZE 0x2a)
    rcases hr : send_recv_buf_or_reopen env st2 s (List.replicate CONFIG_BUF_SIZE 0x2a)
      with ⟨e2, s1, buf1, st3⟩
    rw [hr] at hcases
    simp only at hcases ⊢
    refine ⟨[], ?_⟩
    rw [dev_close_trace]
    rcases hcases with ⟨-, -, hs1, hev⟩ | ⟨-, -, -, hs1, hev⟩
        | ⟨-, -, -, -, hs1, eo2, -, do2, hev⟩
        | ⟨-, -, -, -, h2, eo2, r2, hs1, -, do2, -, d2, hev⟩
    · subst hs1
      rw [hev, hsh]
      simp only [handle_discipline_append, hst2, d1, Option.some_bind]
      simp [handle_discipline, handle_step]
    · subst hs1
      rw [hev, hsh]
      simp only [handle_discipline_append, hst2, d1, Option.some_bind]
      simp [handle_discipline, handle_step]
    · subst hs1
      rw [hev, hsh]
      simp only [handle_discipline_append, hst2, d1, Option.some_bind]
      simp [handle_discipline, handle_step, do2]
    · subst hs1
      rw [hev, hsh]
      simp only [handle_discipline_append, hst2, d1, Option.some_bind]
      simp [handle_discipline, handle_step, do2, d2]

/-! ## The whole run -/

/-- C10: in the run of `main` from program start, for every environment, every
initial segment of the trace passes the handle bookkeeping with at most one
handle open after it: no second handle is opened while one is open, and
`usb_close` is only applied to a non-null handle that is open at that moment.
`main` returns 0. -/
theorem main_handle_discipline (env : Env) :
    (∀ pre rest, (main env State.start).2.trace = pre ++ rest →
        ∃ opened, handle_discipline [] pre = some opened ∧ opened.length ≤ 1)
    ∧ (main env State.start).1 = 0 := by
  constructor
  · intro pre rest hsplit
    obtain ⟨o', ho'⟩ := main_trace_discipline env
    rw [hsplit] at ho'
    exact handle_discipline_initial_segment [] o' pre rest (by simp) ho'
  · unfold main initialize_
    simp only [ne_eq, not_true_eq_false, if_false]
    rcases dev_open env (usb_init { State.start with is_mach_le := get_is_mach_le env })
      with ⟨e1, handle, uh, st2⟩
    simp only
    split_ifs
    · cases handle <;> rfl
    · rfl

end BbbOtg
